import Mathlib

/-!
Shallow embedding of `fastapi_jwt_auth/auth_jwt.py` (class `AuthJWT`).

Modelling conventions:
- Python dynamic values are given precise Lean types; the dynamic `isinstance`
  type checks of the source (raising `TypeError`) are discharged by typing and
  therefore not reproduced.
- Python truthiness is modelled explicitly where the source branches on it
  (`if exp_time:`, `expires_time or default`, `if not self._secret_key`, ...).
- `datetime.now(timezone.utc)` is passed in as an explicit integer `now`
  (seconds since the epoch); `uuid.uuid4()` randomness is passed in as an
  explicit nibble stream `r : Nat -> Nat`.
- An encoded JWT is modelled as a structure carrying the algorithm of its
  header, the key that signed it, and its claim set; signature verification is
  modelled as key equality (the symmetric-algorithm case, which is the one the
  claims exercise).
- Exceptions are modelled as an error sum returned through `Except`.
- String messages reproduce the source with quote characters elided.
-/

namespace FastapiJwtAuth

/-- The `identity` claim: the source requires a string or an integer. -/
inductive Identity
| str (s : String)
| int (n : Int)
deriving DecidableEq

/-- The dynamic union `Union[timedelta,int,bool]` accepted by `expires_time`.
A `timedelta` is modelled by its whole number of seconds. -/
inductive ExpiresTime
| td (seconds : Int)
| int (n : Int)
| bool (b : Bool)
deriving DecidableEq

/-- Python truthiness of an `ExpiresTime` value (`timedelta(0)`, `0` and
`False` are falsy). -/
def ExpiresTime.truthy : ExpiresTime → Bool
| .td s => s ≠ 0
| .int n => n ≠ 0
| .bool b => b

/-- A configured default expiry (`AUTHJWT_ACCESS_TOKEN_EXPIRES` /
`AUTHJWT_REFRESH_TOKEN_EXPIRES`): a timedelta or an integer. -/
inductive TimeVal
| td (seconds : Int)
| int (n : Int)
deriving DecidableEq

def TimeVal.toExpiresTime : TimeVal → ExpiresTime
| .td s => .td s
| .int n => .int n

/-- The decoded payload of a token, with the claims `_create_token` builds.
`type` is the `type` claim, `fresh` is present only when set. -/
structure Claims where
  identity : Identity
  type : String
  fresh : Option Bool
  iat : Int
  nbf : Int
  jti : String
  exp : Option Int
  iss : Option String
  aud : Option (List String)
deriving DecidableEq

/-- An encoded JWT: header algorithm, signing key, payload. -/
structure Token where
  alg : String
  key : String
  claims : Claims
deriving DecidableEq

/-- The exceptions the source raises (`fastapi_jwt_auth.exceptions` plus the
built-in `ValueError` / `RuntimeError` / `TypeError` / `KeyError`). -/
inductive AuthError
| invalidHeaderError (status : Nat) (message : String)
| jwtDecodeError (status : Nat) (message : String)
| revokedTokenError (status : Nat) (message : String)
| missingHeaderError (status : Nat) (message : String)
| accessTokenRequired (status : Nat) (message : String)
| refreshTokenRequired (status : Nat) (message : String)
| freshTokenRequired (status : Nat) (message : String)
| runtimeError (message : String)
| valueError (message : String)
| typeError (message : String)
| keyError (message : String)
deriving DecidableEq

/-- The `process` argument of `_get_secret_key` (its two call sites pass the
literals `encode` and `decode`). -/
inductive Process
| encode
| decode
deriving DecidableEq

/-- The two `type_token` values used by the token-creation call sites. -/
inductive TokenType
| access
| refresh
deriving DecidableEq

def TokenType.str : TokenType → String
| .access => "access"
| .refresh => "refresh"

/-- Modelled from the spec: the process-wide configuration consumed by the
core (`AuthConfig`, whose module is not part of the given sources); fields and
their meaning per spec section 6. `has_crypto` stands for the runtime
availability of the cryptography dependency (`jwt.algorithms.has_crypto`). -/
structure Config where
  secret_key : Option String
  private_key : Option String
  public_key : Option String
  algorithm : String
  decode_algorithms : Option (List String)
  decode_leeway : Int
  decode_issuer : Option String
  encode_issuer : Option String
  decode_audience : Option (List String)
  denylist_enabled : Bool
  denylist_token_checks : List String
  token_in_denylist_callback : Option (Claims → Bool)
  access_token_expires : TimeVal
  refresh_token_expires : TimeVal
  header_name : String
  header_type : String
  has_crypto : Bool

/-- Python truthiness of an optional string (`None` and the empty string are
falsy). -/
def strTruthy : Option String → Bool
| none => false
| some s => s ≠ ""

/-- `jwt.algorithms` symmetric set used by `_get_secret_key`. -/
def symmetric_algorithms : List String := ["HS256", "HS384", "HS512"]

/-- `jwt.algorithms.requires_cryptography` (PyJWT 1.x). -/
def requires_cryptography : List String :=
  ["RS256", "RS384", "RS512", "ES256", "ES384", "ES521", "ES512",
   "PS256", "PS384", "PS512"]

/-- `AuthJWT._get_secret_key`: key material for an algorithm and an operation. -/
def get_secret_key (c : Config) (algorithm : String) (process : Process) :
    Except AuthError String :=
  if ¬ algorithm ∈ symmetric_algorithms ∧ ¬ algorithm ∈ requires_cryptography then
    .error (.valueError ("Algorithm " ++ algorithm ++ " could not be found"))
  else if algorithm ∈ symmetric_algorithms then
    if ¬ strTruthy c.secret_key then
      .error (.runtimeError
        ("AUTHJWT_SECRET_KEY must be set when using symmetric algorithm " ++ algorithm))
    else .ok (c.secret_key.getD "")
  else if ¬ c.has_crypto then
    .error (.runtimeError
      ("Missing dependencies for using asymmetric algorithms. run pip install fastapi-jwt-auth[asymmetric]"))
  else match process with
  | .encode =>
    if ¬ strTruthy c.private_key then
      .error (.runtimeError
        ("AUTHJWT_PRIVATE_KEY must be set when using asymmetric algorithm " ++ algorithm))
    else .ok (c.private_key.getD "")
  | .decode =>
    if ¬ strTruthy c.public_key then
      .error (.runtimeError
        ("AUTHJWT_PUBLIC_KEY must be set when using asymmetric algorithm " ++ algorithm))
    else .ok (c.public_key.getD "")

/-- The configured default expiry for a token type. -/
def defaultExpires (c : Config) : TokenType → TimeVal
| .access => c.access_token_expires
| .refresh => c.refresh_token_expires

/-- Python `expires_time or default`: the left operand when truthy, otherwise
the configured default. -/
def pyOrExp (a : Option ExpiresTime) (d : TimeVal) : ExpiresTime :=
  match a with
  | some x => if x.truthy then x else d.toExpiresTime
  | none => d.toExpiresTime

/-- `AuthJWT._get_expired_time`: `none` means the `exp` claim is omitted.
Mirrors the source: the `expires_time is not False` gates, the
`expires_time or default` truthiness fallback, the `isinstance(_, bool)`
replacement by the default, and `int(timedelta.total_seconds())`. -/
def getExpiredTime (c : Config) (now : Int) (type_token : TokenType)
    (expires_time : Option ExpiresTime) : Option Int :=
  if expires_time = some (.bool false) then none
  else
    let e1 : ExpiresTime := pyOrExp expires_time (defaultExpires c type_token)
    let e2 : ExpiresTime :=
      match e1 with
      | .bool _ => (defaultExpires c type_token).toExpiresTime
      | x => x
    let secs : Int :=
      match e2 with
      | .td s => s
      | .int n => n
      | .bool b => if b then 1 else 0  -- unreachable: defaults are never booleans
    some (now + secs)

/-! ### `uuid.uuid4()` and `str()` of it (`_get_jwt_identifier`) -/

def hexDigits : List Char := "0123456789abcdef".data

/-- One lowercase hexadecimal digit. -/
def hexChar (n : Nat) : Char := hexDigits.getD n '0'

/-- The character at position `i` of the 36-character textual form of a UUID
whose 32 hexadecimal digits (most significant first) are `d 0 .. d 31`:
dashes at positions 8, 13, 18 and 23, hex digits elsewhere. -/
def uuidChar (d : Nat → Nat) (i : Nat) : Char :=
  if i = 8 ∨ i = 13 ∨ i = 18 ∨ i = 23 then '-'
  else if i < 8 then hexChar (d i)
  else if i < 13 then hexChar (d (i - 1))
  else if i < 18 then hexChar (d (i - 2))
  else if i < 23 then hexChar (d (i - 3))
  else hexChar (d (i - 4))

/-- `str(uuid)`: the canonical 8-4-4-4-12 dashed lowercase hex rendering. -/
def uuidString (d : Nat → Nat) : String :=
  String.mk (List.ofFn (fun i : Fin 36 => uuidChar d i.val))

/-- Modelled from the spec: `uuid.uuid4()` (the Python standard library, not
part of the given sources) draws 128 random bits and forces the version
nibble (digit 12) to 4 and the top two bits of the variant nibble (digit 16)
to `10`. `r` is the stream of random nibbles, masked to 4 bits. -/
def uuid4Digits (r : Nat → Nat) : Nat → Nat := fun j =>
  if j = 12 then 4
  else if j = 16 then 8 + r 16 % 4
  else r j % 16

/-- `AuthJWT._get_jwt_identifier`: `str(uuid.uuid4())`, with the randomness
passed in as the nibble stream `r`. -/
def get_jwt_identifier (r : Nat → Nat) : String := uuidString (uuid4Digits r)

/-! ### Token creation (`_create_token`, `create_access_token`,
`create_refresh_token`) -/

/-- The claim dictionary `_create_token` builds (`reserved_claims` merged
with `custom_claims`): `iat`, `nbf`, `jti` always; `fresh` for access tokens
only; `exp`, `iss`, `aud` only when truthy (Python `if exp_time:` /
`if issuer:` / `if audience:`). -/
def create_token_claims (now : Int) (r : Nat → Nat) (identity : Identity)
    (type_token : String) (exp_time : Option Int) (fresh : Bool)
    (issuer : Option String) (audience : Option (List String)) : Claims :=
  { identity := identity
    type := type_token
    fresh := if type_token = "access" then some fresh else none
    iat := now
    nbf := now
    jti := get_jwt_identifier r
    exp := match exp_time with
           | some e => if e ≠ 0 then some e else none
           | none => none
    iss := match issuer with
           | some s => if s ≠ "" then some s else none
           | none => none
    aud := match audience with
           | some l => if l ≠ [] then some l else none
           | none => none }

/-- `algorithm = algorithm or self._algorithm` (string truthiness). -/
def resolveAlg (c : Config) (algorithm : Option String) : String :=
  match algorithm with
  | some a => if a ≠ "" then a else c.algorithm
  | none => c.algorithm

/-- `AuthJWT._create_token`. `now` stands for the two
`datetime.now(timezone.utc)` readings (taken microseconds apart in the
source), `r` for the randomness consumed by `_get_jwt_identifier`. The
dynamic type validations of the source hold by typing. The `headers`
parameter (extra JWT header fields, unused by every claim) is not modelled. -/
def create_token (c : Config) (now : Int) (r : Nat → Nat) (identity : Identity)
    (type_token : String) (exp_time : Option Int) (fresh : Bool)
    (algorithm : Option String) (issuer : Option String)
    (audience : Option (List String)) : Except AuthError Token :=
  match get_secret_key c (resolveAlg c algorithm) .encode with
  | .error e => .error e
  | .ok key =>
    .ok { alg := resolveAlg c algorithm
          key := key
          claims := create_token_claims now r identity type_token exp_time
                      fresh issuer audience }

/-- `AuthJWT.create_access_token`. -/
def create_access_token (c : Config) (now : Int) (r : Nat → Nat)
    (identity : Identity) (fresh : Bool) (algorithm : Option String)
    (expires_time : Option ExpiresTime) (audience : Option (List String)) :
    Except AuthError Token :=
  create_token c now r identity "access"
    (getExpiredTime c now .access expires_time) fresh algorithm
    c.encode_issuer audience

/-- `AuthJWT.create_refresh_token` (note: it passes no issuer). -/
def create_refresh_token (c : Config) (now : Int) (r : Nat → Nat)
    (identity : Identity) (algorithm : Option String)
    (expires_time : Option ExpiresTime) (audience : Option (List String)) :
    Except AuthError Token :=
  create_token c now r identity "refresh"
    (getExpiredTime c now .refresh expires_time) false algorithm
    none audience

/-! ### Verification (`jwt.decode`, `_verified_token`, `_verifying_token`) -/

/-- Issuer validation of the external `jwt` library: enforced only when an
expected issuer is supplied; a missing `iss` claim or a mismatch is an error. -/
def issuerError (issuer : Option String) (cl : Claims) : Option String :=
  match issuer with
  | none => none
  | some iss =>
    match cl.iss with
    | none => some ("Token is missing the iss claim")
    | some i => if i ≠ iss then some ("Invalid issuer") else none

/-- Audience validation of the external `jwt` library: enforced only when an
expected audience is configured; the claim must then be present and intersect
the expected audience. -/
def audError (audience : Option (List String)) (cl : Claims) : Option String :=
  match audience with
  | none => none
  | some expected =>
    match cl.aud with
    | none => some ("Token is missing the aud claim")
    | some l =>
      if expected.all (fun a => ¬ l.contains a) then some ("Invalid audience")
      else none

/-- Whether the `exp` claim, when present, lies more than `leeway` before
`now`. -/
def expExpired (cl : Claims) (now leeway : Int) : Bool :=
  match cl.exp with
  | some e => e < now - leeway
  | none => false

/-- Modelled from the spec: `jwt.decode` of the external `jwt` library
(PyJWT), per spec section 4.3 — an allow-list check on the declared
algorithm, signature verification against `key` (modelled as key equality),
`nbf`/`exp` checks against `now` with `leeway`, then issuer and audience
validation. On success it returns the payload. -/
def jwtDecode (t : Token) (key : String) (issuer : Option String)
    (audience : Option (List String)) (leeway : Int)
    (algorithms : List String) (now : Int) : Except String Claims :=
  if ¬ t.alg ∈ algorithms then .error ("The specified alg value is not allowed")
  else if t.key ≠ key then .error ("Signature verification failed")
  else if now + leeway < t.claims.nbf then .error ("The token is not yet valid (nbf)")
  else if expExpired t.claims now leeway then .error ("Signature has expired")
  else match issuerError issuer t.claims with
  | some m => .error m
  | none =>
    match audError audience t.claims with
    | some m => .error m
    | none => .ok t.claims

/-- `self._decode_algorithms or [self._algorithm]` (an empty configured list
is falsy). -/
def decodeAlgs (c : Config) : List String :=
  match c.decode_algorithms with
  | some l => if l = [] then [c.algorithm] else l
  | none => [c.algorithm]

/-- `AuthJWT._verified_token`: reads the declared algorithm from the
unverified header, resolves the decode key (resolver errors propagate
unchanged), and wraps any `jwt.decode` failure in `JWTDecodeError(422)`.
(On the structured `Token` model the unverified-header parse cannot fail.) -/
def verified_token (c : Config) (t : Token) (issuer : Option String)
    (now : Int) : Except AuthError Claims :=
  match get_secret_key c t.alg .decode with
  | .error e => .error e
  | .ok key =>
    match jwtDecode t key issuer c.decode_audience c.decode_leeway
        (decodeAlgs c) now with
    | .ok claims => .ok claims
    | .error msg => .error (.jwtDecodeError 422 msg)

/-- `AuthJWT._has_token_in_denylist_callback`. -/
def has_token_in_denylist_callback (c : Config) : Bool :=
  c.token_in_denylist_callback.isSome

/-- `AuthJWT._check_token_is_revoked`. -/
def check_token_is_revoked (c : Config) (raw_token : Claims) :
    Except AuthError Unit :=
  if ¬ c.denylist_enabled then .ok ()
  else if ¬ has_token_in_denylist_callback c then
    .error (.runtimeError
      ("A token_in_denylist_callback must be provided via the @AuthJWT.token_in_denylist_loader if AUTHJWT_DENYLIST_ENABLED is True"))
  else match c.token_in_denylist_callback with
  | some f =>
    if f raw_token then .error (.revokedTokenError 401 ("Token has been revoked"))
    else .ok ()
  | none => .ok ()  -- unreachable: the callback is present here

/-- `AuthJWT._verifying_token`: verify, then consult the revocation gate only
for claim types in the configured check set. -/
def verifying_token (c : Config) (t : Token) (issuer : Option String)
    (now : Int) : Except AuthError Unit :=
  match verified_token c t issuer now with
  | .error e => .error e
  | .ok raw =>
    if raw.type ∈ c.denylist_token_checks then check_token_is_revoked c raw
    else .ok ()

/-! ### Accessors and guards -/

/-- `AuthJWT.get_raw_jwt`: the verified claim set of the request credential,
`none` when no credential is present. Note it verifies without an expected
issuer. -/
def get_raw_jwt (c : Config) (token : Option Token) (now : Int) :
    Except AuthError (Option Claims) :=
  match token with
  | some t =>
    match verified_token c t none now with
    | .ok cl => .ok (some cl)
    | .error e => .error e
  | none => .ok none

/-- `AuthJWT._get_type_token`: `self.get_raw_jwt()[type]`. Subscripting the
`None` returned for an absent credential is a Python `TypeError`; the guards
only reach this with a credential present. -/
def get_type_token (c : Config) (token : Option Token) (now : Int) :
    Except AuthError String :=
  match get_raw_jwt c token now with
  | .error e => .error e
  | .ok (some cl) => .ok cl.type
  | .ok none => .error (.typeError ("NoneType object is not subscriptable"))

/-- `AuthJWT._get_fresh_token`: `self.get_raw_jwt()[fresh]`; a missing
`fresh` claim is a Python `KeyError`. -/
def get_fresh_token (c : Config) (token : Option Token) (now : Int) :
    Except AuthError Bool :=
  match get_raw_jwt c token now with
  | .error e => .error e
  | .ok (some cl) =>
    match cl.fresh with
    | some b => .ok b
    | none => .error (.keyError ("fresh"))
  | .ok none => .error (.typeError ("NoneType object is not subscriptable"))

/-- `AuthJWT.get_jwt_identity`. -/
def get_jwt_identity (c : Config) (token : Option Token) (now : Int) :
    Except AuthError (Option Identity) :=
  match token with
  | some t =>
    match verified_token c t none now with
    | .ok cl => .ok (some cl.identity)
    | .error e => .error e
  | none => .ok none

/-- `AuthJWT.get_jti`. -/
def get_jti (c : Config) (encoded_token : Token) (now : Int) :
    Except AuthError String :=
  match verified_token c encoded_token none now with
  | .ok cl => .ok cl.jti
  | .error e => .error e

/-- `AuthJWT.jwt_required`, line for line: verify (with the configured decode
issuer) when a credential is present, then the missing-credential check, then
the type check (which re-verifies through `get_raw_jwt`, without issuer). -/
def jwt_required (c : Config) (token : Option Token) (now : Int) :
    Except AuthError Unit :=
  match (match token with
         | some t => verifying_token c t c.decode_issuer now
         | none => Except.ok ()) with
  | .error e => .error e
  | .ok _ =>
    match token with
    | none => .error (.missingHeaderError 401
        ("Missing " ++ c.header_name ++ " Header"))
    | some _ =>
      match get_type_token c token now with
      | .error e => .error e
      | .ok tt =>
        if tt ≠ "access" then
          .error (.accessTokenRequired 422 ("Only access tokens are allowed"))
        else .ok ()

/-- `AuthJWT.jwt_optional`: like `jwt_required` but absence of a credential
is not an error; the type check runs only when a credential is present. -/
def jwt_optional (c : Config) (token : Option Token) (now : Int) :
    Except AuthError Unit :=
  match (match token with
         | some t => verifying_token c t c.decode_issuer now
         | none => Except.ok ()) with
  | .error e => .error e
  | .ok _ =>
    match token with
    | none => .ok ()
    | some _ =>
      match get_type_token c token now with
      | .error e => .error e
      | .ok tt =>
        if tt ≠ "access" then
          .error (.accessTokenRequired 422 ("Only access tokens are allowed"))
        else .ok ()

/-- `AuthJWT.jwt_refresh_token_required`: verifies without an expected
issuer and requires claim type `refresh`. -/
def jwt_refresh_token_required (c : Config) (token : Option Token)
    (now : Int) : Except AuthError Unit :=
  match (match token with
         | some t => verifying_token c t none now
         | none => Except.ok ()) with
  | .error e => .error e
  | .ok _ =>
    match token with
    | none => .error (.missingHeaderError 401
        ("Missing " ++ c.header_name ++ " Header"))
    | some _ =>
      match get_type_token c token now with
      | .error e => .error e
      | .ok tt =>
        if tt ≠ "refresh" then
          .error (.refreshTokenRequired 422 ("Only refresh tokens are allowed"))
        else .ok ()

/-- `AuthJWT.fresh_jwt_required`: `jwt_required` plus the freshness check. -/
def fresh_jwt_required (c : Config) (token : Option Token) (now : Int) :
    Except AuthError Unit :=
  match (match token with
         | some t => verifying_token c t c.decode_issuer now
         | none => Except.ok ()) with
  | .error e => .error e
  | .ok _ =>
    match token with
    | none => .error (.missingHeaderError 401
        ("Missing " ++ c.header_name ++ " Header"))
    | some _ =>
      match get_type_token c token now with
      | .error e => .error e
      | .ok tt =>
        if tt ≠ "access" then
          .error (.accessTokenRequired 422 ("Only access tokens are allowed"))
        else
          match get_fresh_token c token now with
          | .error e => .error e
          | .ok fr =>
            if ¬ fr then
              .error (.freshTokenRequired 401 ("Fresh token required"))
            else .ok ()

/-! ### Credential extraction (`_get_jwt_from_headers`) -/

/-- The whitespace class of Python `str.split()` and of the regex class
`\s` (ASCII range). -/
def pyIsSpace (ch : Char) : Bool :=
  ch = ' ' ∨ ch = '\t' ∨ ch = '\n' ∨ ch = '\r' ∨ ch = '\x0b' ∨ ch = '\x0c'

/-- Helper for `pySplit`: `acc` holds the characters of the current part in
reverse. -/
def pySplitAux : List Char → List Char → List String
| [], acc => if acc = [] then [] else [String.mk acc.reverse]
| ch :: cs, acc =>
  if pyIsSpace ch then
    if acc = [] then pySplitAux cs []
    else String.mk acc.reverse :: pySplitAux cs []
  else pySplitAux cs (ch :: acc)

/-- Python `auth.split()`: split on whitespace runs, no empty parts. -/
def pySplit (s : String) : List String := pySplitAux s.data []

/-- Strip a leading character-list from another; `some rest` on success. -/
def stripPre : List Char → List Char → Option (List Char)
| [], l => some l
| _ :: _, [] => none
| a :: as, b :: bs => if a = b then stripPre as bs else none

/-- `re.match(r"{header_type}\s", auth)` with the configured header type
taken literally (the default `Bearer` contains no regex metacharacters): the
value starts with the header type followed by one whitespace character. -/
def reMatchTypeSpace (header_type auth : String) : Bool :=
  match stripPre header_type.data auth.data with
  | some (ch :: _) => pyIsSpace ch
  | _ => false

/-- `AuthJWT._get_jwt_from_headers`: extract the raw token from a present
header value. -/
def get_jwt_from_headers (header_name header_type : String) (auth : String) :
    Except AuthError String :=
  let parts := pySplit auth
  if header_type = "" then
    -- <HeaderName>: <JWT>
    if parts.length ≠ 1 then
      .error (.invalidHeaderError 422
        ("Bad " ++ header_name ++ " header. Expected value <JWT>"))
    else .ok (parts.headD "")
  else
    -- <HeaderName>: <HeaderType> <JWT>
    if ¬ reMatchTypeSpace header_type auth ∨ parts.length ≠ 2 then
      .error (.invalidHeaderError 422
        ("Bad " ++ header_name ++ " header. Expected value " ++ header_type ++ " <JWT>"))
    else .ok (parts.getD 1 "")

/-! ### Concrete instances used by the evaluation witnesses -/

/-- A concrete working configuration: symmetric HS256 with a set secret. -/
def cfgW : Config :=
  { secret_key := some "secret"
    private_key := none
    public_key := none
    algorithm := "HS256"
    decode_algorithms := none
    decode_leeway := 0
    decode_issuer := none
    encode_issuer := none
    decode_audience := none
    denylist_enabled := false
    denylist_token_checks := ["access", "refresh"]
    token_in_denylist_callback := none
    access_token_expires := .td 900
    refresh_token_expires := .td 2592000
    header_name := "Authorization"
    header_type := "Bearer"
    has_crypto := true }

/-- A concrete randomness stream. -/
def rW : Nat → Nat := fun _ => 0

/-- The refresh token `create_refresh_token cfgW 1000 rW (.str "u") ...`
produces. -/
def tokRefreshW : Token :=
  { alg := "HS256"
    key := "secret"
    claims :=
      { identity := .str "u"
        type := "refresh"
        fresh := none
        iat := 1000
        nbf := 1000
        jti := get_jwt_identifier rW
        exp := some 2593000
        iss := none
        aud := none } }

/-- The access token `create_access_token cfgW 1000 rW (.str "u") fresh ...`
produces. -/
def tokAccessW (fresh : Bool) : Token :=
  { alg := "HS256"
    key := "secret"
    claims :=
      { identity := .str "u"
        type := "access"
        fresh := some fresh
        iat := 1000
        nbf := 1000
        jti := get_jwt_identifier rW
        exp := some 1900
        iss := none
        aud := none } }

/-- `c` with the denylist fully armed against claim type `ty` (enabled, the
type checked, a predicate that revokes everything) and no expected decode
issuer. Used to show the guards do consult the revocation gate. -/
def revokeAllCfg (c : Config) (ty : String) : Config :=
  { c with
    denylist_enabled := true
    denylist_token_checks := [ty]
    token_in_denylist_callback := some (fun _ => true)
    decode_issuer := none }

/-- `cfgW` with the denylist enabled and a predicate revoking refresh
tokens. -/
def cfgRevW : Config :=
  { cfgW with
    denylist_enabled := true
    token_in_denylist_callback := some (fun cl => cl.type == "refresh") }

/-- The number of seconds of a configured default expiry (`int(total_seconds())`
for a timedelta). -/
def defaultSeconds (c : Config) (tt : TokenType) : Int :=
  match defaultExpires c tt with
  | .td s => s
  | .int n => n

/-- The access token `create_access_token cfgW 1000 rW (.str "u") true none
(some (.bool false)) none` produces: `expires_time=False`, so no `exp`. -/
def tokNoExpW : Token :=
  { alg := "HS256"
    key := "secret"
    claims :=
      { identity := .str "u"
        type := "access"
        fresh := some true
        iat := 1000
        nbf := 1000
        jti := get_jwt_identifier rW
        exp := none
        iss := none
        aud := none } }

/-- The position inside the 36-character dashed UUID rendering of hex digit
`j` (dashes sit at positions 8, 13, 18 and 23). -/
def stringPos (j : Nat) : Nat :=
  if j < 8 then j
  else if j < 12 then j + 1
  else if j < 16 then j + 2
  else if j < 20 then j + 3
  else j + 4

/-! ## Helper lemmas -/

theorem uuid4Digits_lt (r : Nat → Nat) (j : Nat) : uuid4Digits r j < 16 := by
  unfold uuid4Digits
  split_ifs <;> omega

theorem hexChar_mem (n : Nat) (h : n < 16) : hexChar n ∈ hexDigits := by
  have hall : ∀ m, m < 16 → hexChar m ∈ hexDigits := by decide
  exact hall n h

theorem hexChar_injOn :
    ∀ a, a < 16 → ∀ b, b < 16 → hexChar a = hexChar b → a = b := by
  decide

theorem stringPos_lt (j : Nat) (hj : j < 32) : stringPos j < 36 := by
  unfold stringPos
  split_ifs <;> omega

theorem uuidChar_stringPos (d : Nat → Nat) (j : Nat) (hj : j < 32) :
    uuidChar d (stringPos j) = hexChar (d j) := by
  interval_cases j <;> rfl

theorem uuidString_get? (d : Nat → Nat) (i : Nat) (h : i < 36) :
    (uuidString d).data.get? i = some (uuidChar d i) := by
  have hdata : (uuidString d).data =
      List.ofFn (fun i : Fin 36 => uuidChar d i.val) := rfl
  rw [hdata, List.get?_ofFn]
  simp [List.ofFnNthVal, h]

theorem uuidString_length (d : Nat → Nat) : (uuidString d).length = 36 := by
  simp [uuidString, String.length]

theorem uuidString_inj {d d' : Nat → Nat} (hd : ∀ j, d j < 16)
    (hd' : ∀ j, d' j < 16) (h : uuidString d = uuidString d') :
    ∀ j, j < 32 → d j = d' j := by
  intro j hj
  have hchar : uuidChar d (stringPos j) = uuidChar d' (stringPos j) := by
    have hdata : (uuidString d).data = (uuidString d').data := by rw [h]
    have hsp := stringPos_lt j hj
    have h1 := uuidString_get? d (stringPos j) hsp
    have h2 := uuidString_get? d' (stringPos j) hsp
    rw [hdata] at h1
    have := h1.symm.trans h2
    exact Option.some.inj this
  rw [uuidChar_stringPos d j hj, uuidChar_stringPos d' j hj] at hchar
  exact hexChar_injOn (d j) (hd j) (d' j) (hd' j) hchar

theorem verified_token_ok_of {c : Config} {t : Token} {iss : Option String}
    {now : Int} (hk : get_secret_key c t.alg Process.decode = .ok t.key)
    (halg : t.alg ∈ decodeAlgs c)
    (hnbf : t.claims.nbf ≤ now + c.decode_leeway)
    (hexp : expExpired t.claims now c.decode_leeway = false)
    (hiss : issuerError iss t.claims = none)
    (haud : audError c.decode_audience t.claims = none) :
    verified_token c t iss now = .ok t.claims := by
  have h3 : ¬ (now + c.decode_leeway < t.claims.nbf) := by omega
  simp [verified_token, hk, jwtDecode, halg, h3, hexp, hiss, haud]

theorem jwtDecode_ok_elim {t : Token} {key : String} {iss : Option String}
    {aud : Option (List String)} {leeway : Int} {algorithms : List String}
    {now : Int} {cl : Claims}
    (h : jwtDecode t key iss aud leeway algorithms now = .ok cl) :
    cl = t.claims ∧ t.alg ∈ algorithms ∧ t.key = key ∧
    t.claims.nbf ≤ now + leeway ∧ expExpired t.claims now leeway = false ∧
    issuerError iss t.claims = none ∧ audError aud t.claims = none := by
  unfold jwtDecode at h
  split_ifs at h with h1 h2 h3 h4
  cases hi : issuerError iss t.claims with
  | some m => rw [hi] at h; exact absurd h (by simp)
  | none =>
    rw [hi] at h
    cases ha : audError aud t.claims with
    | some m => rw [ha] at h; exact absurd h (by simp)
    | none =>
      rw [ha] at h
      simp only [Except.ok.injEq] at h
      refine ⟨h.symm, h1, not_not.mp h2, by omega, by simpa using h4, rfl, rfl⟩

theorem verified_token_ok_elim {c : Config} {t : Token} {iss : Option String}
    {now : Int} {cl : Claims} (h : verified_token c t iss now = .ok cl) :
    cl = t.claims ∧ get_secret_key c t.alg Process.decode = .ok t.key ∧
    t.alg ∈ decodeAlgs c ∧ t.claims.nbf ≤ now + c.decode_leeway ∧
    expExpired t.claims now c.decode_leeway = false ∧
    issuerError iss t.claims = none ∧
    audError c.decode_audience t.claims = none := by
  unfold verified_token at h
  split at h
  next e heq => simp at h
  next k heq =>
    split at h
    next claims heq2 =>
      obtain ⟨hcl, halg, hkey, hnbf, hexp, hiss, haud⟩ := jwtDecode_ok_elim heq2
      simp only [Except.ok.injEq] at h
      subst h
      exact ⟨hcl, by rw [hkey]; exact heq, halg, hnbf, hexp, hiss, haud⟩
    next msg heq2 => simp at h

theorem verified_token_none_of_ok {c : Config} {t : Token}
    {iss : Option String} {now : Int} {cl : Claims}
    (h : verified_token c t iss now = .ok cl) :
    verified_token c t none now = .ok cl := by
  obtain ⟨hcl, hk, halg, hnbf, hexp, _, haud⟩ := verified_token_ok_elim h
  subst hcl
  exact verified_token_ok_of hk halg hnbf hexp rfl haud

theorem verifying_token_ok_elim {c : Config} {t : Token} {iss : Option String}
    {now : Int} (h : verifying_token c t iss now = .ok ()) :
    verified_token c t iss now = .ok t.claims ∧
    (t.claims.type ∈ c.denylist_token_checks →
      check_token_is_revoked c t.claims = .ok ()) := by
  unfold verifying_token at h
  split at h
  next e heq => simp at h
  next raw heq =>
    have hr : raw = t.claims := (verified_token_ok_elim heq).1
    subst hr
    refine ⟨heq, fun hm => ?_⟩
    rwa [if_pos hm] at h

theorem verifying_token_ok_of {c : Config} {t : Token} {iss : Option String}
    {now : Int} (hv : verified_token c t iss now = .ok t.claims)
    (hrev : t.claims.type ∈ c.denylist_token_checks →
      check_token_is_revoked c t.claims = .ok ()) :
    verifying_token c t iss now = .ok () := by
  unfold verifying_token
  rw [hv]
  show (if t.claims.type ∈ c.denylist_token_checks then
      check_token_is_revoked c t.claims else Except.ok ()) = Except.ok ()
  by_cases hm : t.claims.type ∈ c.denylist_token_checks
  · rw [if_pos hm]; exact hrev hm
  · rw [if_neg hm]

theorem get_type_token_of {c : Config} {t : Token} {now : Int}
    (hv : verified_token c t none now = .ok t.claims) :
    get_type_token c (some t) now = .ok t.claims.type := by
  simp [get_type_token, get_raw_jwt, hv]

theorem get_fresh_token_of {c : Config} {t : Token} {now : Int} {b : Bool}
    (hv : verified_token c t none now = .ok t.claims)
    (hf : t.claims.fresh = some b) :
    get_fresh_token c (some t) now = .ok b := by
  simp [get_fresh_token, get_raw_jwt, hv, hf]

theorem get_secret_key_symmetric (c : Config) {alg : String}
    (h : alg ∈ symmetric_algorithms) (p p' : Process) :
    get_secret_key c alg p = get_secret_key c alg p' := by
  simp [get_secret_key, h]

theorem create_token_ok_elim {c : Config} {now : Int} {r : Nat → Nat}
    {identity : Identity} {ty : String} {et : Option Int} {fresh : Bool}
    {alg : Option String} {iss : Option String} {aud : Option (List String)}
    {t : Token}
    (h : create_token c now r identity ty et fresh alg iss aud = .ok t) :
    t.claims = create_token_claims now r identity ty et fresh iss aud ∧
    t.alg = resolveAlg c alg ∧
    get_secret_key c (resolveAlg c alg) Process.encode = .ok t.key := by
  unfold create_token at h
  cases hk : get_secret_key c (resolveAlg c alg) Process.encode with
  | error e => rw [hk] at h; simp at h
  | ok k =>
    rw [hk] at h
    simp only [Except.ok.injEq] at h
    subst h
    exact ⟨rfl, rfl, rfl⟩

/-! ## Claims -/

/-- Claim C1: a token created by `create_refresh_token` (hence of claim type
`refresh`) that verifies successfully is rejected by `jwt_required` with
`AccessTokenRequired` and accepted by `jwt_refresh_token_required`;
symmetrically, a verified token whose type is not `refresh` makes
`jwt_refresh_token_required` fail with `RefreshTokenRequired`. -/
theorem claim_C1 (c : Config) (nc now : Int) (r : Nat → Nat)
    (identity : Identity) (alg : Option String) (et : Option ExpiresTime)
    (aud : Option (List String)) (t : Token)
    (hcreate : create_refresh_token c nc r identity alg et aud = .ok t)
    (hver : verifying_token c t c.decode_issuer now = .ok ()) :
    jwt_required c (some t) now =
      .error (.accessTokenRequired 422 ("Only access tokens are allowed")) ∧
    jwt_refresh_token_required c (some t) now = .ok () ∧
    ∀ t' : Token, verifying_token c t' none now = .ok () →
      t'.claims.type ≠ "refresh" →
      jwt_refresh_token_required c (some t') now =
        .error (.refreshTokenRequired 422 ("Only refresh tokens are allowed")) := by
  have htype : t.claims.type = "refresh" := by
    have := (create_token_ok_elim hcreate).1
    rw [this]
    rfl
  obtain ⟨hv, hrev⟩ := verifying_token_ok_elim hver
  have hvnone : verified_token c t none now = .ok t.claims :=
    verified_token_none_of_ok hv
  have hvernone : verifying_token c t none now = .ok () :=
    verifying_token_ok_of hvnone hrev
  refine ⟨?_, ?_, ?_⟩
  · simp [jwt_required, hver, get_type_token_of hvnone, htype]
  · simp [jwt_refresh_token_required, hvernone, get_type_token_of hvnone, htype]
  · intro t' hver' hty'
    obtain ⟨hv', _⟩ := verifying_token_ok_elim hver'
    simp [jwt_refresh_token_required, hver', get_type_token_of hv', hty']

/-- Claim C2: for a verified claim set whose type is in the
denylist-checked set, verification passes when revocation enforcement is
disabled; raises `RuntimeError` when enabled without a registered callback;
and with a callback raises `RevokedTokenError` exactly when the predicate
holds of the claim set. A verified claim set whose type is outside the
checked set never triggers the predicate (verification passes for every
callback). -/
theorem claim_C2 (c : Config) (t : Token) (iss : Option String) (now : Int)
    (cl : Claims) (hok : verified_token c t iss now = .ok cl) :
    (cl.type ∈ c.denylist_token_checks →
      (c.denylist_enabled = false → verifying_token c t iss now = .ok ()) ∧
      (c.denylist_enabled = true → c.token_in_denylist_callback = none →
        verifying_token c t iss now = .error (.runtimeError
          ("A token_in_denylist_callback must be provided via the @AuthJWT.token_in_denylist_loader if AUTHJWT_DENYLIST_ENABLED is True"))) ∧
      (∀ f : Claims → Bool, c.denylist_enabled = true →
        c.token_in_denylist_callback = some f →
        (verifying_token c t iss now =
            .error (.revokedTokenError 401 ("Token has been revoked")) ↔
          f cl = true) ∧
        (f cl = false → verifying_token c t iss now = .ok ()))) ∧
    (¬ cl.type ∈ c.denylist_token_checks →
      verifying_token c t iss now = .ok ()) := by
  have hcl : cl = t.claims := (verified_token_ok_elim hok).1
  subst hcl
  have heq : verifying_token c t iss now =
      if t.claims.type ∈ c.denylist_token_checks then
        check_token_is_revoked c t.claims else .ok () := by
    unfold verifying_token
    rw [hok]
  refine ⟨fun hm => ⟨?_, ?_, ?_⟩, fun hm => ?_⟩
  · intro hde
    rw [heq, if_pos hm]
    simp [check_token_is_revoked, hde]
  · intro hde hcb
    rw [heq, if_pos hm]
    simp [check_token_is_revoked, hde, has_token_in_denylist_callback, hcb]
  · intro f hde hcb
    rw [heq, if_pos hm]
    constructor
    · by_cases hf : f t.claims <;>
        simp [check_token_is_revoked, hde, has_token_in_denylist_callback, hcb, hf]
    · intro hf
      simp [check_token_is_revoked, hde, has_token_in_denylist_callback, hcb, hf]
  · rw [heq, if_neg hm]

/-- Claim C3: the accessors `get_raw_jwt`, `get_jwt_identity` and `get_jti`
return the claim set, identity and jti of any token that passes verification,
without consulting the revocation gate (their results are unchanged under any
denylist configuration, even one that revokes everything) and without passing
the configured decode issuer to verification (their results are unchanged
under any configured decode issuer); the four guard operations do perform the
revocation check (each rejects a revoked token with `RevokedTokenError`). -/
theorem claim_C3 (c : Config) (t : Token) (now : Int) (cl : Claims)
    (hok : verified_token c t none now = .ok cl) :
    get_raw_jwt c (some t) now = .ok (some cl) ∧
    get_jwt_identity c (some t) now = .ok (some cl.identity) ∧
    get_jti c t now = .ok cl.jti ∧
    (∀ (e : Bool) (ch : List String) (f : Option (Claims → Bool))
        (di : Option String),
      get_raw_jwt
        { c with
          denylist_enabled := e
          denylist_token_checks := ch
          token_in_denylist_callback := f
          decode_issuer := di } (some t) now = .ok (some cl) ∧
      get_jwt_identity
        { c with
          denylist_enabled := e
          denylist_token_checks := ch
          token_in_denylist_callback := f
          decode_issuer := di } (some t) now = .ok (some cl.identity) ∧
      get_jti
        { c with
          denylist_enabled := e
          denylist_token_checks := ch
          token_in_denylist_callback := f
          decode_issuer := di } t now = .ok cl.jti) ∧
    (jwt_required (revokeAllCfg c cl.type) (some t) now =
      .error (.revokedTokenError 401 ("Token has been revoked")) ∧
     jwt_optional (revokeAllCfg c cl.type) (some t) now =
      .error (.revokedTokenError 401 ("Token has been revoked")) ∧
     jwt_refresh_token_required (revokeAllCfg c cl.type) (some t) now =
      .error (.revokedTokenError 401 ("Token has been revoked")) ∧
     fresh_jwt_required (revokeAllCfg c cl.type) (some t) now =
      .error (.revokedTokenError 401 ("Token has been revoked"))) := by
  have hcl : cl = t.claims := (verified_token_ok_elim hok).1
  subst hcl
  have hok' : verified_token (revokeAllCfg c t.claims.type) t none now =
      .ok t.claims := hok
  have hrev : verifying_token (revokeAllCfg c t.claims.type) t none now =
      .error (.revokedTokenError 401 ("Token has been revoked")) := by
    unfold verifying_token
    rw [hok']
    simp [revokeAllCfg, check_token_is_revoked, has_token_in_denylist_callback]
  have hrev2 : verifying_token (revokeAllCfg c t.claims.type) t
      ((revokeAllCfg c t.claims.type).decode_issuer) now =
      .error (.revokedTokenError 401 ("Token has been revoked")) := hrev
  refine ⟨?_, ?_, ?_, ?_, ?_, ?_, ?_, ?_⟩
  · simp [get_raw_jwt, hok]
  · simp [get_jwt_identity, hok]
  · simp [get_jti, hok]
  · intro e ch f di
    have hok2 : verified_token
        { c with
          denylist_enabled := e
          denylist_token_checks := ch
          token_in_denylist_callback := f
          decode_issuer := di } t none now = .ok t.claims := hok
    exact ⟨by simp [get_raw_jwt, hok2], by simp [get_jwt_identity, hok2],
      by simp [get_jti, hok2]⟩
  · simp [jwt_required, hrev2]
  · simp [jwt_optional, hrev2]
  · simp [jwt_refresh_token_required, hrev]
  · simp [fresh_jwt_required, hrev2]

/-- Claim C7: a verified access token satisfies `fresh_jwt_required` exactly
when its `fresh` claim is true (a token minted with `fresh=False` fails with
`FreshTokenRequired`, with `fresh=True` it succeeds); the freshness check
comes after the type check, so a verified non-access token fails with
`AccessTokenRequired` instead. -/
theorem claim_C7 (c : Config) (nc now : Int) (r : Nat → Nat)
    (identity : Identity) (b : Bool) (alg : Option String)
    (et : Option ExpiresTime) (aud : Option (List String)) (t : Token)
    (hcreate : create_access_token c nc r identity b alg et aud = .ok t)
    (hver : verifying_token c t c.decode_issuer now = .ok ()) :
    fresh_jwt_required c (some t) now =
      (if b then .ok ()
       else .error (.freshTokenRequired 401 ("Fresh token required"))) ∧
    ∀ t' : Token, verifying_token c t' c.decode_issuer now = .ok () →
      t'.claims.type ≠ "access" →
      fresh_jwt_required c (some t') now =
        .error (.accessTokenRequired 422 ("Only access tokens are allowed")) := by
  have hclaims := (create_token_ok_elim hcreate).1
  have htype : t.claims.type = "access" := by rw [hclaims]; rfl
  have hfresh : t.claims.fresh = some b := by rw [hclaims]; rfl
  obtain ⟨hv, _⟩ := verifying_token_ok_elim hver
  have hvnone : verified_token c t none now = .ok t.claims :=
    verified_token_none_of_ok hv
  refine ⟨?_, ?_⟩
  · simp [fresh_jwt_required, hver, get_type_token_of hvnone, htype,
      get_fresh_token_of hvnone hfresh]
    cases b <;> simp
  · intro t' hver' hty'
    obtain ⟨hv', _⟩ := verifying_token_ok_elim hver'
    simp [fresh_jwt_required, hver',
      get_type_token_of (verified_token_none_of_ok hv'), hty']

/-- Claim C8: with no credential extracted, `jwt_required` fails with
`MissingHeader` while `jwt_optional` succeeds and the accessors return
`None`; this holds for every configuration (no verification or revocation
machinery is consulted). -/
theorem claim_C8 (c : Config) (now : Int) :
    jwt_required c none now =
      .error (.missingHeaderError 401 ("Missing " ++ c.header_name ++ " Header")) ∧
    jwt_optional c none now = .ok () ∧
    get_jwt_identity c none now = .ok none ∧
    get_raw_jwt c none now = .ok none :=
  ⟨rfl, rfl, rfl, rfl⟩

/-- Claim C1 witness: the hypotheses hold and the conclusion is evaluated at
a concrete refresh token. -/
theorem claim_C1_witness :
    create_refresh_token cfgW 1000 rW (.str "u") none none none =
      .ok tokRefreshW ∧
    verifying_token cfgW tokRefreshW cfgW.decode_issuer 1000 = .ok () ∧
    jwt_required cfgW (some tokRefreshW) 1000 =
      .error (.accessTokenRequired 422 ("Only access tokens are allowed")) ∧
    jwt_refresh_token_required cfgW (some tokRefreshW) 1000 = .ok () :=
  ⟨rfl, rfl,
    (claim_C1 cfgW 1000 1000 rW (.str "u") none none none tokRefreshW rfl rfl).1,
    (claim_C1 cfgW 1000 1000 rW (.str "u") none none none tokRefreshW rfl rfl).2.1⟩

/-- Claim C2 witness: with the denylist enabled and a predicate revoking
refresh tokens, verifying a concrete refresh token fails with
`RevokedTokenError`. -/
theorem claim_C2_witness :
    verified_token cfgRevW tokRefreshW none 1000 = .ok tokRefreshW.claims ∧
    verifying_token cfgRevW tokRefreshW none 1000 =
      .error (.revokedTokenError 401 ("Token has been revoked")) :=
  ⟨rfl,
    (((claim_C2 cfgRevW tokRefreshW none 1000 tokRefreshW.claims rfl).1
        (by decide)).2.2 (fun cl => cl.type == "refresh") rfl rfl).1.mpr rfl⟩

/-- Claim C3 witness: the accessor returns the claim set of a concrete
verified token, and the refresh guard rejects it once revoked. -/
theorem claim_C3_witness :
    verified_token cfgW tokRefreshW none 1000 = .ok tokRefreshW.claims ∧
    get_raw_jwt cfgW (some tokRefreshW) 1000 = .ok (some tokRefreshW.claims) ∧
    jwt_required (revokeAllCfg cfgW tokRefreshW.claims.type)
      (some tokRefreshW) 1000 =
      .error (.revokedTokenError 401 ("Token has been revoked")) :=
  ⟨rfl, (claim_C3 cfgW tokRefreshW 1000 tokRefreshW.claims rfl).1,
    (claim_C3 cfgW tokRefreshW 1000 tokRefreshW.claims rfl).2.2.2.2.1⟩

/-- Claim C7 witness: concrete access tokens with `fresh=False` and
`fresh=True` presented to `fresh_jwt_required`. -/
theorem claim_C7_witness :
    (create_access_token cfgW 1000 rW (.str "u") false none none none =
        .ok (tokAccessW false) ∧
      verifying_token cfgW (tokAccessW false) cfgW.decode_issuer 1000 = .ok () ∧
      fresh_jwt_required cfgW (some (tokAccessW false)) 1000 =
        .error (.freshTokenRequired 401 ("Fresh token required"))) ∧
    (create_access_token cfgW 1000 rW (.str "u") true none none none =
        .ok (tokAccessW true) ∧
      fresh_jwt_required cfgW (some (tokAccessW true)) 1000 = .ok ()) :=
  ⟨⟨rfl, rfl,
    (claim_C7 cfgW 1000 1000 rW (.str "u") false none none none
      (tokAccessW false) rfl rfl).1⟩,
   ⟨rfl,
    (claim_C7 cfgW 1000 1000 rW (.str "u") true none none none
      (tokAccessW true) rfl rfl).1⟩⟩

/-- Claim C5: a token whose `exp` claim lies more than the configured leeway
before the current time fails verification with `DecodeError`
(`JWTDecodeError`), given that the checks preceding the expiry check pass; a
token encoded with `expires_time=False` under a symmetric algorithm carries
no `exp` claim and verifies successfully at every later instant. -/
theorem claim_C5 (c : Config) :
    (∀ (t : Token) (iss : Option String) (now e : Int),
      get_secret_key c t.alg Process.decode = .ok t.key →
      t.alg ∈ decodeAlgs c →
      t.claims.nbf ≤ now + c.decode_leeway →
      t.claims.exp = some e →
      e < now - c.decode_leeway →
      verified_token c t iss now =
        .error (.jwtDecodeError 422 ("Signature has expired"))) ∧
    (∀ (nc : Int) (r : Nat → Nat) (identity : Identity) (b : Bool)
        (t : Token),
      create_access_token c nc r identity b none (some (.bool false)) none =
        .ok t →
      c.algorithm ∈ symmetric_algorithms →
      c.decode_algorithms = none →
      c.decode_audience = none →
      0 ≤ c.decode_leeway →
      t.claims.exp = none ∧
      ∀ now : Int, nc ≤ now → verified_token c t none now = .ok t.claims) := by
  constructor
  · intro t iss now e hk halg hnbf hexp hlt
    have h3 : ¬ (now + c.decode_leeway < t.claims.nbf) := by omega
    have hex : expExpired t.claims now c.decode_leeway = true := by
      simp [expExpired, hexp]
      omega
    simp [verified_token, hk, jwtDecode, halg, h3, hex]
  · intro nc r identity b t hcreate hsym hda haud hlee
    obtain ⟨hclaims, halg, hkey⟩ := create_token_ok_elim hcreate
    have halgc : t.alg = c.algorithm := halg
    have hexp : t.claims.exp = none := by rw [hclaims]; rfl
    have hnbf : t.claims.nbf = nc := by rw [hclaims]; rfl
    have hdk : get_secret_key c t.alg Process.decode = .ok t.key := by
      rw [halgc]
      rw [get_secret_key_symmetric c hsym Process.decode Process.encode]
      exact hkey
    refine ⟨hexp, fun now hnow => ?_⟩
    refine verified_token_ok_of hdk ?_ ?_ ?_ rfl ?_
    · rw [halgc]
      simp [decodeAlgs, hda]
    · rw [hnbf]; omega
    · simp [expExpired, hexp]
    · simp [audError, haud]

/-- Claim C5 witness: a concrete token expired beyond leeway is rejected; a
concrete token created with `expires_time=False` has no `exp` and still
verifies far in the future. -/
theorem claim_C5_witness :
    (get_secret_key cfgW (tokAccessW true).alg Process.decode =
        .ok (tokAccessW true).key ∧
      (tokAccessW true).alg ∈ decodeAlgs cfgW ∧
      (tokAccessW true).claims.nbf ≤ 5000 + cfgW.decode_leeway ∧
      (tokAccessW true).claims.exp = some 1900 ∧
      (1900 : Int) < 5000 - cfgW.decode_leeway ∧
      verified_token cfgW (tokAccessW true) none 5000 =
        .error (.jwtDecodeError 422 ("Signature has expired"))) ∧
    (create_access_token cfgW 1000 rW (.str "u") true none
        (some (.bool false)) none = .ok tokNoExpW ∧
      tokNoExpW.claims.exp = none ∧
      verified_token cfgW tokNoExpW none 999999999 = .ok tokNoExpW.claims) :=
  ⟨⟨rfl, by decide, by decide, rfl, by decide,
    (claim_C5 cfgW).1 (tokAccessW true) none 5000 1900 rfl (by decide)
      (by decide) rfl (by decide)⟩,
   ⟨rfl, rfl,
    ((claim_C5 cfgW).2 1000 rW (.str "u") true tokNoExpW rfl (by decide)
        rfl rfl (by decide)).2 999999999 (by decide)⟩⟩

/-- Claim C6 counterexample: with the default access expiry of 900 seconds,
the explicit integer override `0` is falsy in Python, so the code falls back
to the default duration instead of using the integer directly as the claim
states (`now + 0`). -/
theorem claim_C6_counterexample :
    getExpiredTime cfgW 1000 .access (some (.int 0)) = some 1900 ∧
    ¬ getExpiredTime cfgW 1000 .access (some (.int 0)) = some (1000 + 0) :=
  ⟨rfl, by decide⟩

/-- Claim C6 (amended): `False` yields no expiry; an unset or `True` override
yields the configured default duration for the token type; a nonzero integer
or nonzero timedelta override is used directly (the timedelta converted to
whole seconds); a zero integer or zero timedelta override (falsy in Python)
falls back to the configured default duration; whenever expiry is not
disabled, `exp` is the current time plus the resolved duration. -/
theorem claim_C6 (c : Config) (now : Int) (tt : TokenType) :
    getExpiredTime c now tt (some (.bool false)) = none ∧
    getExpiredTime c now tt none = some (now + defaultSeconds c tt) ∧
    getExpiredTime c now tt (some (.bool true)) =
      some (now + defaultSeconds c tt) ∧
    (∀ s : Int, s ≠ 0 →
      getExpiredTime c now tt (some (.td s)) = some (now + s)) ∧
    (∀ n : Int, n ≠ 0 →
      getExpiredTime c now tt (some (.int n)) = some (now + n)) ∧
    getExpiredTime c now tt (some (.td 0)) =
      some (now + defaultSeconds c tt) ∧
    getExpiredTime c now tt (some (.int 0)) =
      some (now + defaultSeconds c tt) := by
  refine ⟨rfl, ?_, ?_, ?_, ?_, ?_, ?_⟩
  · cases hd : defaultExpires c tt <;>
      simp [getExpiredTime, pyOrExp, TimeVal.toExpiresTime, defaultSeconds, hd]
  · cases hd : defaultExpires c tt <;>
      simp [getExpiredTime, pyOrExp, ExpiresTime.truthy, TimeVal.toExpiresTime,
        defaultSeconds, hd]
  · intro s hs
    simp [getExpiredTime, pyOrExp, ExpiresTime.truthy, hs]
  · intro n hn
    simp [getExpiredTime, pyOrExp, ExpiresTime.truthy, hn]
  · cases hd : defaultExpires c tt <;>
      simp [getExpiredTime, pyOrExp, ExpiresTime.truthy, TimeVal.toExpiresTime,
        defaultSeconds, hd]
  · cases hd : defaultExpires c tt <;>
      simp [getExpiredTime, pyOrExp, ExpiresTime.truthy, TimeVal.toExpiresTime,
        defaultSeconds, hd]

/-- Claim C6 witness: the amended resolution evaluated at a concrete
configuration. -/
theorem claim_C6_witness :
    (60 : Int) ≠ 0 ∧
    getExpiredTime cfgW 1000 .access (some (.td 60)) = some (1000 + 60) :=
  ⟨by decide, ((claim_C6 cfgW 1000 .access).2.2.2.1 60 (by decide))⟩

/-- Claim C10: key resolution is a function of `(algorithm, operation)` over
the process-wide configuration: an algorithm in neither the symmetric nor
the asymmetric set is a `ValueError`; a symmetric algorithm resolves to the
configured secret key for both operations, with a `RuntimeError` naming
`AUTHJWT_SECRET_KEY` when it is unset; an asymmetric algorithm without the
cryptography capability is a `RuntimeError`; an asymmetric algorithm
resolves to the configured private key for `encode` and public key for
`decode`, each a `RuntimeError` naming the missing setting when unset. -/
theorem claim_C10 (c : Config) (alg : String) :
    ((¬ alg ∈ symmetric_algorithms ∧ ¬ alg ∈ requires_cryptography) →
      ∀ p, get_secret_key c alg p =
        .error (.valueError ("Algorithm " ++ alg ++ " could not be found"))) ∧
    (alg ∈ symmetric_algorithms →
      get_secret_key c alg .encode = get_secret_key c alg .decode ∧
      (strTruthy c.secret_key = true →
        ∀ p, ∃ k, c.secret_key = some k ∧ get_secret_key c alg p = .ok k) ∧
      (strTruthy c.secret_key = false →
        ∀ p, get_secret_key c alg p = .error (.runtimeError
          ("AUTHJWT_SECRET_KEY must be set when using symmetric algorithm " ++ alg)))) ∧
    (alg ∈ requires_cryptography →
      (c.has_crypto = false →
        ∀ p, get_secret_key c alg p = .error (.runtimeError
          ("Missing dependencies for using asymmetric algorithms. run pip install fastapi-jwt-auth[asymmetric]"))) ∧
      (c.has_crypto = true →
        (strTruthy c.private_key = true →
          ∃ k, c.private_key = some k ∧
            get_secret_key c alg .encode = .ok k) ∧
        (strTruthy c.private_key = false →
          get_secret_key c alg .encode = .error (.runtimeError
            ("AUTHJWT_PRIVATE_KEY must be set when using asymmetric algorithm " ++ alg))) ∧
        (strTruthy c.public_key = true →
          ∃ k, c.public_key = some k ∧
            get_secret_key c alg .decode = .ok k) ∧
        (strTruthy c.public_key = false →
          get_secret_key c alg .decode = .error (.runtimeError
            ("AUTHJWT_PUBLIC_KEY must be set when using asymmetric algorithm " ++ alg))))) := by
  have hdisj : ∀ a ∈ requires_cryptography, ¬ a ∈ symmetric_algorithms := by
    decide
  refine ⟨?_, ?_, ?_⟩
  · rintro ⟨h1, h2⟩ p
    simp [get_secret_key, h1, h2]
  · intro hm
    refine ⟨get_secret_key_symmetric c hm .encode .decode, ?_, ?_⟩
    · intro ht p
      cases hsk : c.secret_key with
      | none => rw [hsk] at ht; simp [strTruthy] at ht
      | some k =>
        exact ⟨k, rfl, by simp [get_secret_key, hm, hsk, strTruthy,
          (by rw [hsk] at ht; simpa [strTruthy] using ht : k ≠ "")]⟩
    · intro ht p
      simp [get_secret_key, hm, ht]
  · intro hm
    have hns : ¬ alg ∈ symmetric_algorithms := hdisj alg hm
    refine ⟨?_, ?_⟩
    · intro hc p
      cases p <;> simp [get_secret_key, hm, hns, hc]
    · intro hc
      refine ⟨?_, ?_, ?_, ?_⟩
      · intro ht
        cases hpk : c.private_key with
        | none => rw [hpk] at ht; simp [strTruthy] at ht
        | some k =>
          exact ⟨k, rfl, by simp [get_secret_key, hm, hns, hc, hpk, strTruthy,
            (by rw [hpk] at ht; simpa [strTruthy] using ht : k ≠ "")]⟩
      · intro ht
        simp [get_secret_key, hm, hns, hc, ht]
      · intro ht
        cases hpk : c.public_key with
        | none => rw [hpk] at ht; simp [strTruthy] at ht
        | some k =>
          exact ⟨k, rfl, by simp [get_secret_key, hm, hns, hc, hpk, strTruthy,
            (by rw [hpk] at ht; simpa [strTruthy] using ht : k ≠ "")]⟩
      · intro ht
        simp [get_secret_key, hm, hns, hc, ht]

/-- Claim C10 witness: key resolution evaluated on a symmetric algorithm
with a set secret, at both operations. -/
theorem claim_C10_witness :
    "HS256" ∈ symmetric_algorithms ∧
    strTruthy cfgW.secret_key = true ∧
    ∃ k, cfgW.secret_key = some k ∧
      get_secret_key cfgW "HS256" Process.encode = .ok k :=
  ⟨by decide, by decide,
    ((claim_C10 cfgW "HS256").2.1 (by decide)).2.1 (by decide) Process.encode⟩

theorem stripPre_eq_some {p l r : List Char} :
    stripPre p l = some r ↔ l = p ++ r := by
  induction p generalizing l with
  | nil => simp [stripPre]
  | cons a as ih =>
    cases l with
    | nil => simp [stripPre]
    | cons b bs =>
      simp only [stripPre, List.cons_append, List.cons.injEq]
      by_cases hab : a = b
      · subst hab
        rw [if_pos rfl, ih]
        simp
      · rw [if_neg hab]
        constructor
        · intro h
          exact Option.noConfusion h
        · rintro ⟨h1, h2⟩
          exact absurd h1.symm hab

theorem reMatchTypeSpace_iff {ht auth : String} :
    reMatchTypeSpace ht auth = true ↔
      ∃ ch rest, auth.data = ht.data ++ ch :: rest ∧ pyIsSpace ch = true := by
  unfold reMatchTypeSpace
  cases hs : stripPre ht.data auth.data with
  | none =>
    simp only [Bool.false_eq_true, false_iff]
    rintro ⟨ch, rest, hd, _⟩
    have := stripPre_eq_some.mpr hd
    rw [hs] at this
    exact Option.noConfusion this
  | some r =>
    have hr : auth.data = ht.data ++ r := stripPre_eq_some.mp hs
    cases r with
    | nil =>
      simp only [Bool.false_eq_true, false_iff]
      rintro ⟨ch, rest, hd, _⟩
      rw [hr] at hd
      have := List.append_cancel_left hd
      exact List.noConfusion this
    | cons ch rest =>
      constructor
      · intro hsp
        exact ⟨ch, rest, hr, hsp⟩
      · rintro ⟨ch', rest', hd, hsp⟩
        rw [hr] at hd
        have := List.append_cancel_left hd
        cases this
        exact hsp

theorem list_of_length_one {α : Type} {l : List α} (h : l.length = 1) :
    ∃ a, l = [a] := by
  cases l with
  | nil => simp at h
  | cons a t =>
    cases t with
    | nil => exact ⟨a, rfl⟩
    | cons b t2 => simp at h

theorem list_of_length_two {α : Type} {l : List α} (h : l.length = 2) :
    ∃ a b, l = [a, b] := by
  cases l with
  | nil => simp at h
  | cons a t =>
    cases t with
    | nil => simp at h
    | cons b t2 =>
      cases t2 with
      | nil => exact ⟨a, b, rfl⟩
      | cons d t3 => simp at h

/-- Claim C9: extraction from a present header value. With no configured
header-type prefix the value must be exactly one whitespace-delimited token,
which is returned; with a configured prefix the value must start with the
prefix followed by a whitespace character and split into exactly two
whitespace-delimited parts, the second of which is returned; every failure is
`InvalidHeader`, and in particular the value `Bearer` alone under the
configured prefix `Bearer` is rejected. -/
theorem claim_C9 (header_name header_type auth : String) :
    (header_type = "" →
      ∀ tok, (get_jwt_from_headers header_name header_type auth = .ok tok ↔
        pySplit auth = [tok])) ∧
    (header_type ≠ "" →
      ∀ tok, (get_jwt_from_headers header_name header_type auth = .ok tok ↔
        (∃ ch rest, auth.data = header_type.data ++ ch :: rest ∧
          pyIsSpace ch = true) ∧
        ∃ w, pySplit auth = [w, tok])) ∧
    ((∀ tok, ¬ get_jwt_from_headers header_name header_type auth = .ok tok) →
      ∃ m, get_jwt_from_headers header_name header_type auth =
        .error (.invalidHeaderError 422 m)) ∧
    get_jwt_from_headers "Authorization" "Bearer" "Bearer" =
      .error (.invalidHeaderError 422
        ("Bad Authorization header. Expected value Bearer <JWT>")) := by
  refine ⟨?_, ?_, ?_, rfl⟩
  · intro he tok
    subst he
    unfold get_jwt_from_headers
    rw [if_pos rfl]
    by_cases hl : (pySplit auth).length = 1
    · obtain ⟨a, ha⟩ := list_of_length_one hl
      rw [if_neg (by omega)]
      simp [ha]
    · rw [if_pos (by omega)]
      constructor
      · intro h
        exact Except.noConfusion h
      · intro h
        rw [h] at hl
        simp at hl
  · intro he tok
    unfold get_jwt_from_headers
    rw [if_neg he]
    by_cases hm : reMatchTypeSpace header_type auth = true
    · by_cases hl : (pySplit auth).length = 2
      · obtain ⟨a, b, hab⟩ := list_of_length_two hl
        rw [if_neg (by simp [hm]; omega)]
        rw [hab]
        simp only [List.getD, Except.ok.injEq]
        constructor
        · intro h
          subst h
          exact ⟨reMatchTypeSpace_iff.mp hm, a, rfl⟩
        · rintro ⟨-, w, hw⟩
          obtain ⟨h1, h2⟩ : a = w ∧ b = tok := by simpa using hw
          simp [h2]
      · rw [if_pos (by right; omega)]
        constructor
        · intro h
          exact Except.noConfusion h
        · rintro ⟨-, w, hw⟩
          rw [hw] at hl
          simp at hl
    · rw [if_pos (by left; exact hm)]
      constructor
      · intro h
        exact Except.noConfusion h
      · rintro ⟨hpre, -⟩
        exact absurd (reMatchTypeSpace_iff.mpr hpre) hm
  · intro hno
    unfold get_jwt_from_headers
    by_cases he : header_type = ""
    · rw [if_pos he]
      by_cases hl : (pySplit auth).length ≠ 1
      · rw [if_pos hl]
        exact ⟨_, rfl⟩
      · exfalso
        apply hno ((pySplit auth).headD "")
        unfold get_jwt_from_headers
        rw [if_pos he, if_neg hl]
    · rw [if_neg he]
      by_cases hc : ¬ reMatchTypeSpace header_type auth = true ∨
          (pySplit auth).length ≠ 2
      · rw [if_pos hc]
        exact ⟨_, rfl⟩
      · exfalso
        apply hno ((pySplit auth).getD 1 "")
        unfold get_jwt_from_headers
        rw [if_neg he, if_neg hc]

/-- Claim C9 witness: the extraction rules evaluated on concrete header
values. -/
theorem claim_C9_witness :
    (("" : String) = "" ∧
      get_jwt_from_headers "Authorization" "" " tok " = .ok "tok") ∧
    (("Bearer" : String) ≠ "" ∧
      get_jwt_from_headers "Authorization" "Bearer" "Bearer tok" = .ok "tok") ∧
    get_jwt_from_headers "Authorization" "Bearer" "Bearer" =
      .error (.invalidHeaderError 422
        ("Bad Authorization header. Expected value Bearer <JWT>")) :=
  ⟨⟨rfl, ((claim_C9 "Authorization" "" " tok ").1 rfl "tok").mpr rfl⟩,
   ⟨by decide, ((claim_C9 "Authorization" "Bearer" "Bearer tok").2.1
      (by decide) "tok").mpr
      ⟨⟨' ', "tok".data, rfl, rfl⟩, "Bearer", rfl⟩⟩,
   (claim_C9 "Authorization" "Bearer" "Bearer").2.2.2⟩

/-- Claim C4: under a symmetric algorithm with a set secret, decoding the
token produced by the corresponding create operation recovers exactly the
supplied identity and type; for `access` the decoded claims carry `fresh`
equal to the supplied boolean and for `refresh` they carry no `fresh` key;
the created token carries a `jti` in UUID-v4 textual form (36 characters,
dashes at positions 8, 13, 18, 23, version digit `4`, variant digit in
`8/9/a/b`, hex digits elsewhere), and tokens created from randomness whose
masked digits differ anywhere carry distinct `jti` strings. -/
theorem claim_C4 (c : Config) (now : Int) (r : Nat → Nat)
    (identity : Identity) (b : Bool) (tt : TokenType) (et : Option ExpiresTime)
    (hsym : c.algorithm ∈ symmetric_algorithms)
    (hsec : strTruthy c.secret_key = true)
    (hda : c.decode_algorithms = none)
    (haud : c.decode_audience = none)
    (hlee : 0 ≤ c.decode_leeway)
    (hexp : ∀ e, getExpiredTime c now tt et = some e →
      now - c.decode_leeway ≤ e) :
    (∃ t : Token,
      (match tt with
       | .access => create_access_token c now r identity b none et none
       | .refresh => create_refresh_token c now r identity none et none) =
        .ok t ∧
      verified_token c t none now = .ok t.claims ∧
      t.claims.identity = identity ∧
      t.claims.type = tt.str ∧
      t.claims.fresh = (match tt with
                        | .access => some b
                        | .refresh => none) ∧
      t.claims.jti = get_jwt_identifier r) ∧
    ((get_jwt_identifier r).length = 36 ∧
      (get_jwt_identifier r).data.get? 8 = some '-' ∧
      (get_jwt_identifier r).data.get? 13 = some '-' ∧
      (get_jwt_identifier r).data.get? 18 = some '-' ∧
      (get_jwt_identifier r).data.get? 23 = some '-' ∧
      (get_jwt_identifier r).data.get? 14 = some '4' ∧
      (∃ ch, (get_jwt_identifier r).data.get? 19 = some ch ∧
        ch ∈ ['8', '9', 'a', 'b']) ∧
      ∀ i, i < 36 → i ≠ 8 → i ≠ 13 → i ≠ 18 → i ≠ 23 →
        ∃ ch, (get_jwt_identifier r).data.get? i = some ch ∧
          ch ∈ hexDigits) ∧
    (∀ r', get_jwt_identifier r = get_jwt_identifier r' →
      ∀ j, j < 32 → uuid4Digits r j = uuid4Digits r' j) := by
  obtain ⟨k, hsk, hne⟩ : ∃ k, c.secret_key = some k ∧ ¬ k = "" := by
    cases hs : c.secret_key with
    | none => rw [hs] at hsec; simp [strTruthy] at hsec
    | some k =>
      rw [hs] at hsec
      simp [strTruthy] at hsec
      exact ⟨k, rfl, hsec⟩
  have hk : get_secret_key c c.algorithm Process.encode = .ok k := by
    simp [get_secret_key, hsym, strTruthy, hsk, hne]
  have hcreate : ∀ (ty : String) (ge : Option Int) (fr : Bool)
      (iss : Option String),
      create_token c now r identity ty ge fr none iss none =
        .ok ⟨c.algorithm, k,
          create_token_claims now r identity ty ge fr iss none⟩ := by
    intro ty ge fr iss
    unfold create_token
    have hra : resolveAlg c none = c.algorithm := rfl
    rw [hra, hk]
  have hverify : ∀ (ty : String) (ge : Option Int) (fr : Bool)
      (iss : Option String),
      (∀ e, ge = some e → now - c.decode_leeway ≤ e) →
      verified_token c
        ⟨c.algorithm, k, create_token_claims now r identity ty ge fr iss none⟩
        none now =
        .ok (create_token_claims now r identity ty ge fr iss none) := by
    intro ty ge fr iss hge
    apply verified_token_ok_of
    · show get_secret_key c c.algorithm Process.decode = .ok k
      rw [get_secret_key_symmetric c hsym Process.decode Process.encode]
      exact hk
    · show c.algorithm ∈ decodeAlgs c
      simp [decodeAlgs, hda]
    · show now ≤ now + c.decode_leeway
      omega
    · show expExpired (create_token_claims now r identity ty ge fr iss none)
        now c.decode_leeway = false
      unfold expExpired create_token_claims
      cases ge with
      | none => rfl
      | some e =>
        by_cases he : e = 0
        · subst he; simp
        · have h1 := hge e rfl
          simp only [ne_eq, he, not_false_eq_true, if_true]
          simp only [decide_eq_false_iff_not, not_lt]
          omega
    · rfl
    · show audError c.decode_audience
        (create_token_claims now r identity ty ge fr iss none) = none
      simp [audError, haud]
  refine ⟨?_, ?_, ?_⟩
  · cases tt with
    | access =>
      exact ⟨⟨c.algorithm, k, create_token_claims now r identity "access"
          (getExpiredTime c now .access et) b c.encode_issuer none⟩,
        hcreate "access" (getExpiredTime c now .access et) b c.encode_issuer,
        hverify "access" (getExpiredTime c now .access et) b c.encode_issuer
          hexp,
        rfl, rfl, rfl, rfl⟩
    | refresh =>
      exact ⟨⟨c.algorithm, k, create_token_claims now r identity "refresh"
          (getExpiredTime c now .refresh et) false none none⟩,
        hcreate "refresh" (getExpiredTime c now .refresh et) false none,
        hverify "refresh" (getExpiredTime c now .refresh et) false none hexp,
        rfl, rfl, rfl, rfl⟩
  · simp only [get_jwt_identifier]
    refine ⟨uuidString_length _, ?_, ?_, ?_, ?_, ?_, ?_, ?_⟩
    · rw [uuidString_get? (uuid4Digits r) 8 (by omega)]; rfl
    · rw [uuidString_get? (uuid4Digits r) 13 (by omega)]; rfl
    · rw [uuidString_get? (uuid4Digits r) 18 (by omega)]; rfl
    · rw [uuidString_get? (uuid4Digits r) 23 (by omega)]; rfl
    · rw [uuidString_get? (uuid4Digits r) 14 (by omega)]; rfl
    · refine ⟨hexChar (8 + r 16 % 4),
        by rw [uuidString_get? (uuid4Digits r) 19 (by omega)]; rfl, ?_⟩
      have h4 : r 16 % 4 = 0 ∨ r 16 % 4 = 1 ∨ r 16 % 4 = 2 ∨ r 16 % 4 = 3 := by
        omega
      rcases h4 with h | h | h | h <;> rw [h] <;> decide
    · intro i hi h8 h13 h18 h23
      refine ⟨uuidChar (uuid4Digits r) i,
        uuidString_get? (uuid4Digits r) i hi, ?_⟩
      unfold uuidChar
      rw [if_neg (by omega)]
      split_ifs <;> exact hexChar_mem _ (uuid4Digits_lt r _)
  · intro r' heq j hj
    exact uuidString_inj (uuid4Digits_lt r) (uuid4Digits_lt r') heq j hj

/-- Claim C4 witness: the round-trip and the jti shape evaluated at a
concrete configuration, identity and randomness. -/
theorem claim_C4_witness :
    (cfgW.algorithm ∈ symmetric_algorithms ∧
      strTruthy cfgW.secret_key = true ∧
      cfgW.decode_algorithms = none ∧
      cfgW.decode_audience = none ∧
      (0 : Int) ≤ cfgW.decode_leeway ∧
      (∀ e : Int, getExpiredTime cfgW 1000 TokenType.access none = some e →
        1000 - cfgW.decode_leeway ≤ e)) ∧
    (∃ t : Token,
      create_access_token cfgW 1000 rW (.str "u") true none none none =
        .ok t ∧
      verified_token cfgW t none 1000 = .ok t.claims ∧
      t.claims.identity = .str "u" ∧
      t.claims.type = "access" ∧
      t.claims.fresh = some true ∧
      t.claims.jti = get_jwt_identifier rW) ∧
    (get_jwt_identifier rW).length = 36 := by
  have hexpw : ∀ e : Int,
      getExpiredTime cfgW 1000 TokenType.access none = some e →
      1000 - cfgW.decode_leeway ≤ e := by
    intro e he
    have h9 : getExpiredTime cfgW 1000 TokenType.access none = some 1900 := rfl
    rw [h9] at he
    injection he with h
    rw [← h]
    decide
  have hmain := claim_C4 cfgW 1000 rW (.str "u") true .access none (by decide)
    (by decide) rfl rfl (by decide) hexpw
  exact ⟨⟨by decide, by decide, rfl, rfl, by decide, hexpw⟩, hmain.1,
    hmain.2.1.1⟩

end FastapiJwtAuth
